import Mathlib

/-!
Verification of the moderation bot in `src/bot.py` (repository `raid`).

The development shallowly embeds the program's data model and operations:

* the write-through policy cache and its durable store (`Cache`, `Store`,
  the mutators `add_mute`, `add_ban`, ..., and `load_caches`);
* the message pipeline `handle_all_messages`, modelled as a pure function
  from a state, an oracle for the fallible transport calls (`World`), a chat
  and a message to a terminal decision (`Action`) plus the list of attempted
  transport calls (`Effect`);
* the periodic channel reconciliation job `job_enforce_channels`;
* the owner command handlers (`cmd_mute` ... `cmd_unwatch`).

Python truthiness on optional strings is modelled explicitly: a locked title
is "set" when it is `some t` with `t ≠ ""`.  Fallible transport calls are
modelled by boolean success oracles in `World`; an attempted call is recorded
as an `Effect` carrying its success flag, and the embedding reproduces the
source's `try`/`except` control flow (in particular the fall-through of the
bot-mute block when its delete raises).
-/

namespace Raid

/-- Chat kinds as used by the source (`ChatType.GROUP` etc.). -/
inductive ChatKind
  | group
  | supergroup
  | channel
  | privateChat
deriving DecidableEq, Repr

/-- A Telegram user as far as the source inspects it: identifier and bot flag. -/
structure User where
  id : Int
  is_bot : Bool
deriving DecidableEq, Repr

/-- A chat: identifier and kind. -/
structure Chat where
  id : Int
  kind : ChatKind
deriving DecidableEq, Repr

/-- The message fields the handler probes.  Presence-checked service fields
(`new_chat_title`, `new_chat_photo`, `delete_chat_photo`) are booleans since
only their truthiness is consulted. -/
structure Msg where
  from_user : Option User
  via_bot : Option User
  sender_chat : Option Int
  new_chat_title : Bool
  new_chat_photo : Bool
  delete_chat_photo : Bool
  is_automatic_forward : Bool
  forward_from_chat : Option ChatKind
deriving DecidableEq, Repr

/-- A row of `locked_group_info`: nullable title and legacy photo file id. -/
structure LockedEntry where
  title : Option String
  photo_file_id : Option String
deriving DecidableEq, Repr

/-- Replace the value under key `k` if present, otherwise append (`ON CONFLICT
DO UPDATE` upsert; also the dict assignment in the cache). -/
def upsertKV {β : Type} (k : Int) (v : β) (l : List (Int × β)) : List (Int × β) :=
  if (l.lookup k).isSome then
    l.map (fun p => if p.1 = k then (k, v) else p)
  else
    l ++ [(k, v)]

/-- Delete every binding of key `k` (`DELETE ... WHERE`; dict `pop`). -/
def removeKV {β : Type} (k : Int) (l : List (Int × β)) : List (Int × β) :=
  l.filter (fun p => !(p.1 == k))

/-- The in-process cache: `muted_cache`, `banned_cache`, `bot_muted_chats_cache`,
`locked_info_cache`, `no_photo_chats_cache`, `broadcast_lock_global`,
`clean_info_global`. -/
structure Cache where
  muted : Finset Int
  banned : Finset Int
  botMutedChats : Finset Int
  lockedInfo : List (Int × LockedEntry)
  noPhotoChats : Finset Int
  broadcastLock : Bool
  cleanInfo : Bool
deriving DecidableEq

/-- The durable store: one field per table created by `db_init`.  `knownChats`
is kept as an insertion-ordered duplicate-free list because the sweep iterates
over it. -/
structure Store where
  muted : Finset Int
  banned : Finset Int
  botMutedChats : Finset Int
  lockedInfo : List (Int × LockedEntry)
  noPhotoChats : Finset Int
  broadcastLock : Bool
  cleanInfo : Bool
  knownChats : List Int
deriving DecidableEq

/-- Whole-process state: cache, store, and the ephemeral watch-debug state
(`watch_chats`, `watch_left`). -/
structure GState where
  cache : Cache
  store : Store
  watchChats : Finset Int
  watchLeft : List (Int × Nat)
deriving DecidableEq

/-- `load_caches`: rebuild the whole cache from the store (startup). -/
def load_caches (s : Store) : Cache :=
  { muted := s.muted
    banned := s.banned
    botMutedChats := s.botMutedChats
    lockedInfo := s.lockedInfo
    noPhotoChats := s.noPhotoChats
    broadcastLock := s.broadcastLock
    cleanInfo := s.cleanInfo }

/-- `add_known_chat`: insert-if-absent into the `known_chats` table. -/
def addKnownList (c : Int) (l : List Int) : List Int :=
  if l.contains c then l else l ++ [c]

/-- `add_known_chat` lifted to the process state (store-only write). -/
def add_known_chat (c : Int) (st : GState) : GState :=
  { st with store := { st.store with knownChats := addKnownList c st.store.knownChats } }

/-- `add_mute`: cache insert then store insert. -/
def add_mute (x : Int) (st : GState) : GState :=
  { st with
    cache := { st.cache with muted := insert x st.cache.muted }
    store := { st.store with muted := insert x st.store.muted } }

/-- `remove_mute`. -/
def remove_mute (x : Int) (st : GState) : GState :=
  { st with
    cache := { st.cache with muted := st.cache.muted.erase x }
    store := { st.store with muted := st.store.muted.erase x } }

/-- `add_ban`. -/
def add_ban (x : Int) (st : GState) : GState :=
  { st with
    cache := { st.cache with banned := insert x st.cache.banned }
    store := { st.store with banned := insert x st.store.banned } }

/-- `remove_ban`. -/
def remove_ban (x : Int) (st : GState) : GState :=
  { st with
    cache := { st.cache with banned := st.cache.banned.erase x }
    store := { st.store with banned := st.store.banned.erase x } }

/-- `add_bot_mute_chat`. -/
def add_bot_mute_chat (c : Int) (st : GState) : GState :=
  { st with
    cache := { st.cache with botMutedChats := insert c st.cache.botMutedChats }
    store := { st.store with botMutedChats := insert c st.store.botMutedChats } }

/-- `remove_bot_mute_chat`. -/
def remove_bot_mute_chat (c : Int) (st : GState) : GState :=
  { st with
    cache := { st.cache with botMutedChats := st.cache.botMutedChats.erase c }
    store := { st.store with botMutedChats := st.store.botMutedChats.erase c } }

/-- `upsert_locked_info`: dict assignment in the cache, SQL upsert in the store. -/
def upsert_locked_info (c : Int) (title : Option String) (photo : Option String)
    (st : GState) : GState :=
  { st with
    cache := { st.cache with lockedInfo := upsertKV c ⟨title, photo⟩ st.cache.lockedInfo }
    store := { st.store with lockedInfo := upsertKV c ⟨title, photo⟩ st.store.lockedInfo } }

/-- `delete_locked_info`. -/
def delete_locked_info (c : Int) (st : GState) : GState :=
  { st with
    cache := { st.cache with lockedInfo := removeKV c st.cache.lockedInfo }
    store := { st.store with lockedInfo := removeKV c st.store.lockedInfo } }

/-- `add_no_photo_chat`. -/
def add_no_photo_chat (c : Int) (st : GState) : GState :=
  { st with
    cache := { st.cache with noPhotoChats := insert c st.cache.noPhotoChats }
    store := { st.store with noPhotoChats := insert c st.store.noPhotoChats } }

/-- `remove_no_photo_chat`. -/
def remove_no_photo_chat (c : Int) (st : GState) : GState :=
  { st with
    cache := { st.cache with noPhotoChats := st.cache.noPhotoChats.erase c }
    store := { st.store with noPhotoChats := st.store.noPhotoChats.erase c } }

/-- `set_broadcast_lock_state`. -/
def set_broadcast_lock_state (b : Bool) (st : GState) : GState :=
  { st with
    cache := { st.cache with broadcastLock := b }
    store := { st.store with broadcastLock := b } }

/-- `set_clean_info_state`. -/
def set_clean_info_state (b : Bool) (st : GState) : GState :=
  { st with
    cache := { st.cache with cleanInfo := b }
    store := { st.store with cleanInfo := b } }

/-- What `get_chat` returns, as far as the source reads it: title, photo
(`big_file_id` when present) and kind.  `none` from the oracle models the call
raising. -/
structure ChatInfo where
  title : Option String
  photo : Option String
  kind : ChatKind
deriving DecidableEq, Repr

/-- What `get_chat_member` returns for the bot itself: status string and the
`can_change_info` permission. -/
structure MemberInfo where
  status : String
  can_change_info : Bool
deriving DecidableEq, Repr

/-- Success oracles for the fallible transport calls; a `false` value models
the call raising (which every call site catches). -/
structure World where
  getChat : Int → Option ChatInfo
  getChatMember : Int → Option MemberInfo
  setTitleOk : Int → Bool
  delPhotoOk : Int → Bool
  deleteOk : Bool
  banOk : Int → Int → Bool
  unbanOk : Int → Int → Bool
  promoteOk : Int → Int → Bool

/-- Attempted transport calls, each carrying its success flag where failure
is observable in the source (an extra owner notification or a fall-through). -/
inductive Effect
  | watchReport
  | notifyOwner
  | setChatTitle (chatId : Int) (title : String) (ok : Bool)
  | deleteChatPhotoCall (chatId : Int) (ok : Bool)
  | deleteMsg (ok : Bool)
  | banCall (chatId userId : Int) (ok : Bool)
  | unbanCall (chatId userId : Int) (ok : Bool)
  | promoteCall (chatId userId : Int) (ok : Bool)
  | replyMsg
deriving DecidableEq, Repr

/-- The terminal decision of one run of `handle_all_messages`: which `return`
was taken. -/
inductive Action
  | noAction
  | deleteMessage
  | banMember (userId : Int)
  | deleteAndBan (userId : Int)
deriving DecidableEq, Repr

/-- Result of one run of the message handler. -/
structure HResult where
  state : GState
  action : Action
  effects : List Effect
deriving DecidableEq

/-- `chat.type in (GROUP, SUPERGROUP, CHANNEL)`. -/
def isGSC (t : ChatKind) : Bool :=
  t == .group || t == .supergroup || t == .channel

/-- `message_ids_to_check`: sender, via-bot and sender-chat identifiers, in
source order. -/
def message_ids_to_check (msg : Msg) : List Int :=
  ((msg.from_user.map (fun u => u.id)).toList
    ++ (msg.via_bot.map (fun v => v.id)).toList)
    ++ (msg.sender_chat.map (fun c => c)).toList

/-- `is_info_change_service_message`. -/
def is_info_change_service_message (msg : Msg) : Bool :=
  msg.new_chat_title || msg.new_chat_photo || msg.delete_chat_photo

/-- `is_broadcast_like` (defined in the source but never called by this
revision's handler). -/
def is_broadcast_like (msg : Msg) : Bool :=
  msg.sender_chat.isSome || msg.is_automatic_forward
    || (match msg.forward_from_chat with
        | some k => k == ChatKind.channel
        | none => false)

/-- The watch-debug block of the handler: report and decrement while quota
remains, drop the watch once exhausted.  Takes and returns exactly the two
watch components it touches. -/
def watchStep (wc : Finset Int) (wl : List (Int × Nat)) (chatId : Int) :
    (Finset Int × List (Int × Nat)) × List Effect :=
  if chatId ∈ wc then
    let left := (wl.lookup chatId).getD 0
    if 0 < left then
      ((wc, upsertKV chatId (left - 1) wl), [.watchReport])
    else
      ((wc.erase chatId, removeKV chatId wl), [])
  else ((wc, wl), [])

/-- The title-lock block: on a `new_chat_title` service notice in a locked
chat, re-set the title when the locked title is truthy (non-null, non-empty);
a failing call notifies the owner. -/
def titleLockEffects (cache : Cache) (w : World) (chat : Chat) (msg : Msg) : List Effect :=
  match cache.lockedInfo.lookup chat.id with
  | some locked =>
    if msg.new_chat_title then
      match locked.title with
      | some t =>
        if t ≠ "" then
          if w.setTitleOk chat.id then [.setChatTitle chat.id t true]
          else [.setChatTitle chat.id t false, .notifyOwner]
        else []
      | none => []
    else []
  | none => []

/-- The no-photo block: on a photo-change service notice in an enforced chat,
call `enforce_no_chat_photo` (delete the chat photo; a failure notifies the
owner). -/
def noPhotoEffects (cache : Cache) (w : World) (chat : Chat) (msg : Msg) : List Effect :=
  if chat.id ∈ cache.noPhotoChats then
    if msg.new_chat_photo || msg.delete_chat_photo then
      if w.delPhotoOk chat.id then [.deleteChatPhotoCall chat.id true]
      else [.deleteChatPhotoCall chat.id false, .notifyOwner]
    else []
  else []

/-- The per-chat bot-mute block.  Returns the attempted effects and whether
the handler returned.  The single `try` wrapping both checks means a raising
delete falls through past the whole block (and skips the second check). -/
def botMuteStep (cache : Cache) (w : World) (chat : Chat) (msg : Msg) :
    List Effect × Bool :=
  if chat.id ∈ cache.botMutedChats then
    if (match msg.from_user with | some u => u.is_bot | none => false) then
      if w.deleteOk then ([.deleteMsg true], true) else ([.deleteMsg false], false)
    else if msg.via_bot.isSome then
      if w.deleteOk then ([.deleteMsg true], true) else ([.deleteMsg false], false)
    else ([], false)
  else ([], false)

/-- The global-mute tail of the handler (after the ban checks). -/
def muteCheck (cache : Cache) (w : World) (msg : Msg) (pre : List Effect) :
    Action × List Effect :=
  if (message_ids_to_check msg).any (fun i => decide (i ∈ cache.muted)) then
    (.deleteMessage, pre ++ [.deleteMsg w.deleteOk])
  else
    (.noAction, pre)

/-- The banned-via-bot check followed by the global-mute check. -/
def viaBanThenMute (cache : Cache) (w : World) (msg : Msg) (pre : List Effect) :
    Action × List Effect :=
  match msg.via_bot with
  | some v =>
    if v.id ∈ cache.banned then (.deleteMessage, pre ++ [.deleteMsg w.deleteOk])
    else muteCheck cache w msg pre
  | none => muteCheck cache w msg pre

/-- The pipeline from the clean-info sweep onward.  None of these rules
mutates state, so this tail is a pure function of the cache: clean-info
purge, the group-only gate, sender-chat purge, bot-mute, global ban, banned
via-bot, global mute — in source order. -/
def decideTail (cache : Cache) (w : World) (chat : Chat) (msg : Msg)
    (pre : List Effect) : Action × List Effect :=
  if cache.cleanInfo && isGSC chat.kind && is_info_change_service_message msg then
    (.deleteMessage, pre ++ [.deleteMsg w.deleteOk])
  else if !(chat.kind == .group || chat.kind == .supergroup) then
    (.noAction, pre)
  else if msg.sender_chat.isSome then
    (.deleteMessage, pre ++ [.deleteMsg w.deleteOk])
  else
    let bm := botMuteStep cache w chat msg
    if bm.2 then (.deleteMessage, pre ++ bm.1)
    else
      let pre2 := pre ++ bm.1
      match msg.from_user with
      | some u =>
        if u.id ∈ cache.banned then
          (.banMember u.id, pre2 ++ [.banCall chat.id u.id (w.banOk chat.id u.id)])
        else viaBanThenMute cache w msg pre2
      | none => viaBanThenMute cache w msg pre2

/-- `handle_all_messages`: the full pipeline, in source order — chat
discovery (a store-only write), watch debug (a watch-state write plus a
report), title-lock revert, no-photo enforcement, then the stateless
`decideTail`.  The three state writes touch disjoint state components, so
they are modelled componentwise. -/
def handle_all_messages (st : GState) (w : World) (chat : Chat) (msg : Msg) : HResult :=
  let store1 :=
    if isGSC chat.kind then
      { st.store with knownChats := addKnownList chat.id st.store.knownChats }
    else st.store
  let ws := watchStep st.watchChats st.watchLeft chat.id
  let pre := ws.2 ++ titleLockEffects st.cache w chat msg
    ++ noPhotoEffects st.cache w chat msg
  let t := decideTail st.cache w chat msg pre
  ⟨⟨st.cache, store1, ws.1.1, ws.1.2⟩, t.1, t.2⟩

/-- The per-chat body of `job_enforce_channels`: skip the chat entirely when
`get_chat` raises; otherwise, for channels only, re-set a diverged locked
title (when the locked title is truthy) and delete a present photo in
no-photo chats.  Each inner call's failure is swallowed. -/
def enforceChatCalls (cache : Cache) (w : World) (chatId : Int) : List Effect :=
  match w.getChat chatId with
  | none => []
  | some info =>
    if info.kind ≠ .channel then []
    else
      (match cache.lockedInfo.lookup chatId with
       | some locked =>
         match locked.title with
         | some desired =>
           if desired ≠ "" ∧ info.title ≠ some desired then
             [.setChatTitle chatId desired (w.setTitleOk chatId)]
           else []
         | none => []
       | none => []) ++
      (if chatId ∈ cache.noPhotoChats ∧ info.photo.isSome then
         [.deleteChatPhotoCall chatId (w.delPhotoOk chatId)]
       else [])

/-- `job_enforce_channels`: the sweep over the known-chats registry. -/
def job_enforce_channels (cache : Cache) (w : World) : List Int → List Effect
  | [] => []
  | c :: rest => enforceChatCalls cache w c ++ job_enforce_channels cache w rest

-- -------------------- owner commands --------------------

/-- The slice of an `Update` the command handlers consult. -/
structure Upd where
  effectiveUser : Option Int
  effectiveChat : Option Chat
  args : List String
  hasReplyTo : Bool
deriving Repr

/-- `owner_only`: there is an effective user and it is the configured owner. -/
def owner_only (ownerId : Int) (upd : Upd) : Bool :=
  match upd.effectiveUser with
  | some u => u == ownerId
  | none => false

/-- `parse_id_arg`: exactly one argument, parsed as an integer. -/
def parse_id_arg (args : List String) : Option Int :=
  match args with
  | [a] => a.toInt?
  | _ => none

/-- `bot_can_change_info`: admin or creator, creators implicitly allowed;
any raising call yields `false`. -/
def bot_can_change_info (w : World) (chatId : Int) : Bool :=
  match w.getChatMember chatId with
  | none => false
  | some m =>
    if m.status ≠ "administrator" ∧ m.status ≠ "creator" then false
    else if m.status = "creator" then true
    else m.can_change_info

/-- `cmd_mute`. -/
def cmd_mute (ownerId : Int) (upd : Upd) (st : GState) (_w : World) :
    GState × List Effect :=
  if owner_only ownerId upd then
    match parse_id_arg upd.args with
    | none => (st, [.replyMsg])
    | some t => (add_mute t st, [.replyMsg])
  else (st, [])

/-- `cmd_unmute`. -/
def cmd_unmute (ownerId : Int) (upd : Upd) (st : GState) (_w : World) :
    GState × List Effect :=
  if owner_only ownerId upd then
    match parse_id_arg upd.args with
    | none => (st, [.replyMsg])
    | some t => (remove_mute t st, [.replyMsg])
  else (st, [])

/-- `cmd_ban`: record the ban, then attempt to ban in every known chat. -/
def cmd_ban (ownerId : Int) (upd : Upd) (st : GState) (w : World) :
    GState × List Effect :=
  if owner_only ownerId upd then
    match parse_id_arg upd.args with
    | none => (st, [.replyMsg])
    | some uid =>
      let st2 := add_ban uid st
      (st2, st2.store.knownChats.map (fun c => Effect.banCall c uid (w.banOk c uid))
        ++ [.replyMsg])
  else (st, [])

/-- `cmd_unban`. -/
def cmd_unban (ownerId : Int) (upd : Upd) (st : GState) (w : World) :
    GState × List Effect :=
  if owner_only ownerId upd then
    match parse_id_arg upd.args with
    | none => (st, [.replyMsg])
    | some uid =>
      let st2 := remove_ban uid st
      (st2, st2.store.knownChats.map (fun c => Effect.unbanCall c uid (w.unbanOk c uid))
        ++ [.replyMsg])
  else (st, [])

/-- `cmd_admin`: attempt a promotion in every known chat (no policy state). -/
def cmd_admin (ownerId : Int) (upd : Upd) (st : GState) (w : World) :
    GState × List Effect :=
  if owner_only ownerId upd then
    match parse_id_arg upd.args with
    | none => (st, [.replyMsg])
    | some uid =>
      (st, st.store.knownChats.map (fun c => Effect.promoteCall c uid (w.promoteOk c uid))
        ++ [.replyMsg])
  else (st, [])

/-- `cmd_mutebot`. -/
def cmd_mutebot (ownerId : Int) (upd : Upd) (st : GState) (_w : World) :
    GState × List Effect :=
  if owner_only ownerId upd then
    match parse_id_arg upd.args with
    | none => (st, [.replyMsg])
    | some c => (add_bot_mute_chat c st, [.replyMsg])
  else (st, [])

/-- `cmd_unmutebot`. -/
def cmd_unmutebot (ownerId : Int) (upd : Upd) (st : GState) (_w : World) :
    GState × List Effect :=
  if owner_only ownerId upd then
    match parse_id_arg upd.args with
    | none => (st, [.replyMsg])
    | some c => (remove_bot_mute_chat c st, [.replyMsg])
  else (st, [])

/-- `cmd_chatid`. -/
def cmd_chatid (ownerId : Int) (upd : Upd) (st : GState) (_w : World) :
    GState × List Effect :=
  if owner_only ownerId upd then
    match upd.effectiveChat with
    | none => (st, [])
    | some _ => (st, [.replyMsg])
  else (st, [])

/-- One iteration of the `cmd_lockinfo` loop. -/
def lockinfoStep (w : World) (acc : GState) (c : Int) : GState :=
  match w.getChat c with
  | none => acc
  | some info =>
    if isGSC info.kind then
      if bot_can_change_info w c then upsert_locked_info c info.title info.photo acc
      else acc
    else acc

/-- `cmd_lockinfo`: capture the current title/photo of every known
group/supergroup/channel where the bot may change info. -/
def cmd_lockinfo (ownerId : Int) (upd : Upd) (st : GState) (w : World) :
    GState × List Effect :=
  if owner_only ownerId upd then
    (st.store.knownChats.foldl (lockinfoStep w) st, [.replyMsg])
  else (st, [])

/-- `cmd_unlockinfo`: delete every locked-info entry. -/
def cmd_unlockinfo (ownerId : Int) (upd : Upd) (st : GState) (_w : World) :
    GState × List Effect :=
  if owner_only ownerId upd then
    ((st.cache.lockedInfo.map (fun p => p.1)).foldl (fun acc c => delete_locked_info c acc) st,
      [.replyMsg])
  else (st, [])

/-- One iteration of the `cmd_locknophoto` loop. -/
def locknophotoStep (w : World) (acc : GState × List Effect) (c : Int) :
    GState × List Effect :=
  match w.getChat c with
  | none => acc
  | some info =>
    if isGSC info.kind then
      if bot_can_change_info w c then
        let st2 := add_no_photo_chat c acc.1
        let eff :=
          if info.photo.isSome then
            if w.delPhotoOk c then [Effect.deleteChatPhotoCall c true]
            else [Effect.deleteChatPhotoCall c false, Effect.notifyOwner]
          else []
        (st2, acc.2 ++ eff)
      else acc
    else acc

/-- `cmd_locknophoto`. -/
def cmd_locknophoto (ownerId : Int) (upd : Upd) (st : GState) (w : World) :
    GState × List Effect :=
  if owner_only ownerId upd then
    let r := st.store.knownChats.foldl (locknophotoStep w) (st, [])
    (r.1, r.2 ++ [.replyMsg])
  else (st, [])

/-- `cmd_unlocknophoto`: iterate over a snapshot of the cached no-photo set
and remove each entry from cache and store; the loop's net effect is an empty
cache set and the store set minus the snapshot. -/
def cmd_unlocknophoto (ownerId : Int) (upd : Upd) (st : GState) (_w : World) :
    GState × List Effect :=
  if owner_only ownerId upd then
    ({ st with
       cache := { st.cache with noPhotoChats := ∅ }
       store := { st.store with noPhotoChats := st.store.noPhotoChats \ st.cache.noPhotoChats } },
      [.replyMsg])
  else (st, [])

/-- `cmd_lockbroadcast`. -/
def cmd_lockbroadcast (ownerId : Int) (upd : Upd) (st : GState) (_w : World) :
    GState × List Effect :=
  if owner_only ownerId upd then (set_broadcast_lock_state true st, [.replyMsg])
  else (st, [])

/-- `cmd_unlockbroadcast`. -/
def cmd_unlockbroadcast (ownerId : Int) (upd : Upd) (st : GState) (_w : World) :
    GState × List Effect :=
  if owner_only ownerId upd then (set_broadcast_lock_state false st, [.replyMsg])
  else (st, [])

/-- `cmd_cleaninfo_global_on`. -/
def cmd_cleaninfo_global_on (ownerId : Int) (upd : Upd) (st : GState) (_w : World) :
    GState × List Effect :=
  if owner_only ownerId upd then (set_clean_info_state true st, [.replyMsg])
  else (st, [])

/-- `cmd_cleaninfo_global_off`. -/
def cmd_cleaninfo_global_off (ownerId : Int) (upd : Upd) (st : GState) (_w : World) :
    GState × List Effect :=
  if owner_only ownerId upd then (set_clean_info_state false st, [.replyMsg])
  else (st, [])

/-- `cmd_testdelete`. -/
def cmd_testdelete (ownerId : Int) (upd : Upd) (st : GState) (w : World) :
    GState × List Effect :=
  if owner_only ownerId upd then
    if upd.hasReplyTo then (st, [.deleteMsg w.deleteOk, .replyMsg])
    else (st, [.replyMsg])
  else (st, [])

/-- `cmd_dbg`. -/
def cmd_dbg (ownerId : Int) (upd : Upd) (st : GState) (_w : World) :
    GState × List Effect :=
  if owner_only ownerId upd then (st, [.replyMsg])
  else (st, [])

/-- `cmd_watch`. -/
def cmd_watch (ownerId : Int) (upd : Upd) (st : GState) (_w : World) :
    GState × List Effect :=
  if owner_only ownerId upd then
    match upd.effectiveChat with
    | some chat =>
      if isGSC chat.kind then
        ({ st with watchChats := insert chat.id st.watchChats
                   watchLeft := upsertKV chat.id 20 st.watchLeft }, [.replyMsg])
      else (st, [.replyMsg])
    | none => (st, [.replyMsg])
  else (st, [])

/-- `cmd_unwatch`. -/
def cmd_unwatch (ownerId : Int) (upd : Upd) (st : GState) (_w : World) :
    GState × List Effect :=
  if owner_only ownerId upd then
    match upd.effectiveChat with
    | none => (st, [])
    | some chat =>
      ({ st with watchChats := st.watchChats.erase chat.id
                 watchLeft := removeKV chat.id st.watchLeft }, [.replyMsg])
  else (st, [])

-- -------------------- tide mode (spec-modelled) --------------------

/-- Modelled from the spec: tide mode is described in the spec
(`TideModeChatSet`, the `/tide` toggle and pipeline rule 12) but no tide-mode
code appears in this revision's `src/bot.py`; this definition follows the
spec's words.  Toggling flips the chat's membership in the ephemeral
tide-mode set. -/
def toggleTide (c : Int) (tide : Finset Int) : Finset Int :=
  if c ∈ tide then tide.erase c else insert c tide

/-- Modelled from the spec: the tide-mode pipeline rule — while a chat is in
`TideModeChatSet`, a post by a sender who is neither the owner nor a chat
admin/creator yields `DeleteAndBan(senderID)`; otherwise the rule does not
fire. -/
def tideModeAction (tide : Finset Int) (chatId senderId : Int)
    (senderIsOwner senderIsAdmin : Bool) : Option Action :=
  if chatId ∈ tide ∧ senderIsOwner = false ∧ senderIsAdmin = false then
    some (.deleteAndBan senderId)
  else none

-- -------------------- sample values used by witnesses --------------------

/-- An empty cache. -/
def cache0 : Cache := ⟨∅, ∅, ∅, [], ∅, false, false⟩

/-- An empty store. -/
def store0 : Store := ⟨∅, ∅, ∅, [], ∅, false, false, []⟩

/-- An empty process state. -/
def g0 : GState := ⟨cache0, store0, ∅, []⟩

/-- A world in which every transport call succeeds and every query raises. -/
def w0 : World :=
  ⟨fun _ => none, fun _ => none, fun _ => true, fun _ => true, true,
   fun _ _ => true, fun _ _ => true, fun _ _ => true⟩

/-- A message with no optional fields set, sent by user 5 (a human). -/
def plainMsg5 : Msg := ⟨some ⟨5, false⟩, none, none, false, false, false, false, none⟩

-- -------------------- effect counting helpers --------------------

/-- Number of effects in `l` satisfying `p`. -/
def cnt (p : Effect → Bool) (l : List Effect) : Nat := (l.filter p).length

/-- Is this effect a message-delete attempt? -/
def isDeleteMsgEff : Effect → Bool
  | .deleteMsg _ => true
  | _ => false

/-- Is this effect a set-title attempt? -/
def isSetTitleEff : Effect → Bool
  | .setChatTitle _ _ _ => true
  | _ => false

/-- Is this effect a ban attempt? -/
def isBanCallEff : Effect → Bool
  | .banCall _ _ _ => true
  | _ => false

/-- Is this effect a set-title attempt for chat `c`? -/
def isSetTitleFor (c : Int) : Effect → Bool
  | .setChatTitle c2 _ _ => c2 == c
  | _ => false

/-- The chat a sweep/handler transport call is addressed to, when any. -/
def effectChatId : Effect → Option Int
  | .setChatTitle c _ _ => some c
  | .deleteChatPhotoCall c _ => some c
  | .banCall c _ _ => some c
  | .unbanCall c _ _ => some c
  | .promoteCall c _ _ => some c
  | _ => none

theorem cnt_append (p : Effect → Bool) (l1 l2 : List Effect) :
    cnt p (l1 ++ l2) = cnt p l1 + cnt p l2 := by
  simp [cnt, List.filter_append]

theorem cnt_watchStep (p : Effect → Bool) (hp : p .watchReport = false)
    (wc : Finset Int) (wl : List (Int × Nat)) (cid : Int) :
    cnt p (watchStep wc wl cid).2 = 0 := by
  simp only [watchStep]
  split_ifs <;> simp [cnt, hp]

theorem cnt_titleLock (p : Effect → Bool)
    (h1 : ∀ c t o, p (.setChatTitle c t o) = false) (h2 : p .notifyOwner = false)
    (cache : Cache) (w : World) (chat : Chat) (msg : Msg) :
    cnt p (titleLockEffects cache w chat msg) = 0 := by
  unfold titleLockEffects
  repeat' split
  all_goals simp [cnt, h1, h2]

theorem cnt_noPhoto (p : Effect → Bool)
    (h1 : ∀ c o, p (.deleteChatPhotoCall c o) = false) (h2 : p .notifyOwner = false)
    (cache : Cache) (w : World) (chat : Chat) (msg : Msg) :
    cnt p (noPhotoEffects cache w chat msg) = 0 := by
  unfold noPhotoEffects
  repeat' split
  all_goals simp [cnt, h1, h2]

theorem cnt_botMuteStep (p : Effect → Bool) (hdel : ∀ o, p (.deleteMsg o) = false)
    (cache : Cache) (w : World) (chat : Chat) (msg : Msg) :
    cnt p (botMuteStep cache w chat msg).1 = 0 := by
  unfold botMuteStep
  repeat' split
  all_goals simp [cnt, hdel]

theorem cnt_decideTail (p : Effect → Bool) (hdel : ∀ o, p (.deleteMsg o) = false)
    (hban : ∀ c u o, p (.banCall c u o) = false)
    (cache : Cache) (w : World) (chat : Chat) (msg : Msg) (pre : List Effect) :
    cnt p (decideTail cache w chat msg pre).2 = cnt p pre := by
  have hbm := cnt_botMuteStep p hdel cache w chat msg
  have hmc : ∀ pre2, cnt p (muteCheck cache w msg pre2).2 = cnt p pre2 := by
    intro pre2
    unfold muteCheck
    split <;> simp [cnt_append, cnt, hdel]
  have hvb : ∀ pre2, cnt p (viaBanThenMute cache w msg pre2).2 = cnt p pre2 := by
    intro pre2
    unfold viaBanThenMute
    split
    · split
      · simp [cnt_append, cnt, hdel]
      · exact hmc pre2
    · exact hmc pre2
  simp only [decideTail]
  split
  · simp [cnt_append, cnt, hdel]
  split
  · rfl
  split
  · simp [cnt_append, cnt, hdel]
  split
  · simp [cnt_append, hbm]
  · split
    · split
      · rw [cnt_append, cnt_append, hbm]
        simp [cnt, hban]
      · rw [hvb, cnt_append, hbm]
        exact Nat.add_zero _
    · rw [hvb, cnt_append, hbm]
      exact Nat.add_zero _

/-- The effects accumulated before the decision tail runs: watch report,
title-lock revert, no-photo enforcement. -/
def handlerPre (st : GState) (w : World) (chat : Chat) (msg : Msg) : List Effect :=
  (watchStep st.watchChats st.watchLeft chat.id).2
    ++ titleLockEffects st.cache w chat msg
    ++ noPhotoEffects st.cache w chat msg

theorem handle_action_eq (st : GState) (w : World) (chat : Chat) (msg : Msg) :
    (handle_all_messages st w chat msg).action
      = (decideTail st.cache w chat msg (handlerPre st w chat msg)).1 := rfl

theorem handle_effects_eq (st : GState) (w : World) (chat : Chat) (msg : Msg) :
    (handle_all_messages st w chat msg).effects
      = (decideTail st.cache w chat msg (handlerPre st w chat msg)).2 := rfl

theorem cnt_handlerPre (p : Effect → Bool) (hp : p .watchReport = false)
    (h1 : ∀ c t o, p (.setChatTitle c t o) = false)
    (h2 : p .notifyOwner = false)
    (h3 : ∀ c o, p (.deleteChatPhotoCall c o) = false)
    (st : GState) (w : World) (chat : Chat) (msg : Msg) :
    cnt p (handlerPre st w chat msg) = 0 := by
  unfold handlerPre
  rw [cnt_append, cnt_append, cnt_watchStep p hp, cnt_titleLock p h1 h2,
    cnt_noPhoto p h3 h2]

-- -------------------- C6 --------------------

/-- Claim C6: after `add_mute X`, rebuilding the cache solely from the store
(the startup load) yields a cache in which X is a member of the global mute
set. -/
theorem c6_mute_survives_reload (x : Int) (st : GState) :
    x ∈ (load_caches ((add_mute x st).store)).muted := by
  simp [load_caches, add_mute]

-- -------------------- C3 (tide mode, modelled from the spec) --------------------

/-- Claim C3: toggling tide mode twice in a chat that starts inactive returns
the tide set to its original state (the chat inactive again), and while a
chat is in the tide set, a post by a sender who is neither owner nor admin
yields `DeleteAndBan(senderID)`. -/
theorem c3_tide_toggle_and_rule (tide : Finset Int) (c sender : Int)
    (hinactive : c ∉ tide) :
    toggleTide c (toggleTide c tide) = tide ∧
    c ∉ toggleTide c (toggleTide c tide) ∧
    (∀ t : Finset Int, c ∈ t →
      tideModeAction t c sender false false = some (.deleteAndBan sender)) := by
  have h1 : toggleTide c tide = insert c tide := by
    simp [toggleTide, hinactive]
  have h2 : toggleTide c (toggleTide c tide) = tide := by
    rw [h1]
    simp [toggleTide, Finset.erase_insert hinactive]
  refine ⟨h2, by rw [h2]; exact hinactive, ?_⟩
  intro t ht
  simp [tideModeAction, ht]

/-- Witness for C3 at a concrete input. -/
theorem c3_tide_toggle_and_rule_witness :
    toggleTide 1 (toggleTide 1 (∅ : Finset Int)) = ∅ ∧
    1 ∉ toggleTide 1 (toggleTide 1 (∅ : Finset Int)) ∧
    (∀ t : Finset Int, 1 ∈ t →
      tideModeAction t 1 2 false false = some (.deleteAndBan 2)) :=
  c3_tide_toggle_and_rule ∅ 1 2 (by decide)

-- -------------------- C1 counterexample --------------------

/-- State for the C1 counterexample: user 5 globally banned, chat 10
bot-muted. -/
def c1State : GState :=
  { g0 with cache := { cache0 with banned := {5}, botMutedChats := {10} } }

/-- The C1 counterexample message: banned human user 5 posting via an inline
bot in bot-muted group 10. -/
def c1Msg : Msg := ⟨some ⟨5, false⟩, some ⟨99, true⟩, none, false, false, false, false, none⟩

/-- Counterexample to claim C1 as stated: user 5 is in the global ban set and
posts in group 10, yet the resulting action is `DeleteMessage` alone (the
bot-mute rule fires on the via-bot relay before the global-ban check), not
`BanMember(5)`. -/
theorem c1_counterexample :
    (5 : Int) ∈ c1State.cache.banned ∧
    (handle_all_messages c1State w0 ⟨10, .group⟩ c1Msg).action = .deleteMessage ∧
    (handle_all_messages c1State w0 ⟨10, .group⟩ c1Msg).effects = [.deleteMsg true] := by
  refine ⟨by decide, ?_, ?_⟩ <;> rfl

-- -------------------- C2 counterexample --------------------

/-- State for the C2 counterexample: the broadcast lock is set. -/
def c2State : GState := { g0 with cache := { cache0 with broadcastLock := true } }

/-- Counterexample to claim C2 as stated: with `BroadcastLockFlag` set, a
channel message authored by plain user 5 (not the bot) results in no action
at all, not `DeleteMessage` — this revision's handler never consults the
flag. -/
theorem c2_counterexample :
    c2State.cache.broadcastLock = true ∧
    (handle_all_messages c2State w0 ⟨7, .channel⟩ plainMsg5).action = .noAction ∧
    (handle_all_messages c2State w0 ⟨7, .channel⟩ plainMsg5).effects = [] := by
  refine ⟨rfl, ?_, ?_⟩ <;> rfl

/-- Claim C2 amended: the broadcast-lock flag is stored and toggled by the
owner commands, but this revision's message handler never consults it —
message handling (decision and transport calls) is identical whatever the
flag's value, so no channel or group message is deleted on account of the
flag. -/
theorem c2_amended (st : GState) (w : World) (chat : Chat) (msg : Msg) (b : Bool) :
    (handle_all_messages { st with cache := { st.cache with broadcastLock := b } } w chat msg).action
      = (handle_all_messages st w chat msg).action ∧
    (handle_all_messages { st with cache := { st.cache with broadcastLock := b } } w chat msg).effects
      = (handle_all_messages st w chat msg).effects :=
  ⟨rfl, rfl⟩

-- -------------------- C7 counterexample --------------------

/-- Cache for the C7 counterexample: chat 1 has a locked-info entry whose
desired title is null. -/
def c7Cache : Cache := { cache0 with lockedInfo := [(1, ⟨none, none⟩)] }

/-- World for the C7 counterexample: chat 1 is a live channel titled "x". -/
def c7World : World :=
  { w0 with getChat := fun c => if c = 1 then some ⟨some "x", none, .channel⟩ else none }

/-- Counterexample to claim C7 as stated: channel 1 has a `LockedTitle` entry
and its live title "x" differs from the (null) desired title, yet a sweep
over the registry `[1]` issues no `SetChatTitle` call — the job only re-sets
truthy (non-null, non-empty) locked titles. -/
theorem c7_counterexample :
    c7Cache.lockedInfo.lookup 1 = some ⟨none, none⟩ ∧
    c7World.getChat 1 = some ⟨some "x", none, .channel⟩ ∧
    job_enforce_channels c7Cache c7World [1] = [] := by
  refine ⟨rfl, rfl, ?_⟩
  rfl

-- -------------------- C4 --------------------

theorem decideTail_senderchat (cache : Cache) (w : World) (chat : Chat) (msg : Msg)
    (pre : List Effect)
    (hk2 : (chat.kind == ChatKind.group || chat.kind == ChatKind.supergroup) = true)
    (hsc : msg.sender_chat.isSome = true) :
    decideTail cache w chat msg pre = (.deleteMessage, pre ++ [.deleteMsg w.deleteOk]) := by
  simp [decideTail, hk2, hsc]

/-- Claim C4: a sender-chat-authored message in a bot-muted group/supergroup
yields `DeleteMessage` before the bot-mute rule is evaluated — the decision
and the attempted calls do not change when the chat is removed from
`BotMuteChatSet` — and exactly one message-delete is attempted. -/
theorem c4_rule8_precedence (st : GState) (w : World) (chat : Chat) (msg : Msg)
    (hkind : chat.kind = .group ∨ chat.kind = .supergroup)
    (_hbm : chat.id ∈ st.cache.botMutedChats)
    (hsc : msg.sender_chat.isSome = true) :
    (handle_all_messages st w chat msg).action = .deleteMessage ∧
    cnt isDeleteMsgEff (handle_all_messages st w chat msg).effects = 1 ∧
    (handle_all_messages
        { st with cache := { st.cache with
            botMutedChats := st.cache.botMutedChats.erase chat.id } } w chat msg).action
      = (handle_all_messages st w chat msg).action ∧
    (handle_all_messages
        { st with cache := { st.cache with
            botMutedChats := st.cache.botMutedChats.erase chat.id } } w chat msg).effects
      = (handle_all_messages st w chat msg).effects := by
  have hk2 : (chat.kind == ChatKind.group || chat.kind == ChatKind.supergroup) = true := by
    rcases hkind with h | h <;> simp [h]
  have hmain := decideTail_senderchat st.cache w chat msg (handlerPre st w chat msg) hk2 hsc
  have hmod := decideTail_senderchat
    { st.cache with botMutedChats := st.cache.botMutedChats.erase chat.id } w chat msg
    (handlerPre st w chat msg) hk2 hsc
  refine ⟨?_, ?_, ?_, ?_⟩
  · rw [handle_action_eq, hmain]
  · rw [handle_effects_eq, hmain, cnt_append,
      cnt_handlerPre isDeleteMsgEff rfl (fun _ _ _ => rfl) rfl (fun _ _ => rfl) st w chat msg]
    rfl
  · rw [handle_action_eq, handle_action_eq]
    have hpre : handlerPre
        { st with cache := { st.cache with
            botMutedChats := st.cache.botMutedChats.erase chat.id } } w chat msg
        = handlerPre st w chat msg := rfl
    rw [hpre, hmod, hmain]
  · rw [handle_effects_eq, handle_effects_eq]
    have hpre : handlerPre
        { st with cache := { st.cache with
            botMutedChats := st.cache.botMutedChats.erase chat.id } } w chat msg
        = handlerPre st w chat msg := rfl
    rw [hpre, hmod, hmain]

/-- State for the C4 witness: chat 10 bot-muted. -/
def c4State : GState := { g0 with cache := { cache0 with botMutedChats := {10} } }

/-- The C4 witness message: authored as sender-chat 77. -/
def c4Msg : Msg := ⟨none, none, some 77, false, false, false, false, none⟩

/-- Witness for C4 at a concrete input. -/
theorem c4_rule8_precedence_witness :
    (handle_all_messages c4State w0 ⟨10, .group⟩ c4Msg).action = .deleteMessage ∧
    cnt isDeleteMsgEff (handle_all_messages c4State w0 ⟨10, .group⟩ c4Msg).effects = 1 ∧
    (handle_all_messages
        { c4State with cache := { c4State.cache with
            botMutedChats := c4State.cache.botMutedChats.erase (10 : Int) } } w0 ⟨10, .group⟩ c4Msg).action
      = (handle_all_messages c4State w0 ⟨10, .group⟩ c4Msg).action ∧
    (handle_all_messages
        { c4State with cache := { c4State.cache with
            botMutedChats := c4State.cache.botMutedChats.erase (10 : Int) } } w0 ⟨10, .group⟩ c4Msg).effects
      = (handle_all_messages c4State w0 ⟨10, .group⟩ c4Msg).effects :=
  c4_rule8_precedence c4State w0 ⟨10, .group⟩ c4Msg (Or.inl rfl) (by decide) rfl

-- -------------------- C5 --------------------

/-- Claim C5: with `CleanInfoFlag` set, an info-change service notice in a
group/supergroup/channel is deleted and the pipeline stops (the delete is the
final effect, the only message-delete, and no ban is attempted), and the
delete follows the title-lock revert and no-photo enforcement, which are
still attempted on the same event whenever applicable. -/
theorem c5_cleaninfo_after_reverts (st : GState) (w : World) (chat : Chat) (msg : Msg)
    (hclean : st.cache.cleanInfo = true)
    (hgsc : isGSC chat.kind = true)
    (hinfo : is_info_change_service_message msg = true) :
    (handle_all_messages st w chat msg).action = .deleteMessage ∧
    ∃ pre, (handle_all_messages st w chat msg).effects = pre ++ [.deleteMsg w.deleteOk] ∧
      cnt isDeleteMsgEff pre = 0 ∧ cnt isBanCallEff pre = 0 ∧
      (∀ e t, st.cache.lockedInfo.lookup chat.id = some e → e.title = some t → t ≠ "" →
        msg.new_chat_title = true →
        Effect.setChatTitle chat.id t (w.setTitleOk chat.id) ∈ pre) ∧
      (chat.id ∈ st.cache.noPhotoChats → (msg.new_chat_photo || msg.delete_chat_photo) = true →
        Effect.deleteChatPhotoCall chat.id (w.delPhotoOk chat.id) ∈ pre) := by
  have hcond : (st.cache.cleanInfo && isGSC chat.kind && is_info_change_service_message msg)
      = true := by simp [hclean, hgsc, hinfo]
  have hdt : decideTail st.cache w chat msg (handlerPre st w chat msg)
      = (.deleteMessage, handlerPre st w chat msg ++ [.deleteMsg w.deleteOk]) := by
    simp [decideTail, hcond]
  refine ⟨by rw [handle_action_eq, hdt], handlerPre st w chat msg,
    by rw [handle_effects_eq, hdt],
    cnt_handlerPre isDeleteMsgEff rfl (fun _ _ _ => rfl) rfl (fun _ _ => rfl) st w chat msg,
    cnt_handlerPre isBanCallEff rfl (fun _ _ _ => rfl) rfl (fun _ _ => rfl) st w chat msg,
    ?_, ?_⟩
  · intro e t hlk htitle ht hnct
    have hmem : Effect.setChatTitle chat.id t (w.setTitleOk chat.id)
        ∈ titleLockEffects st.cache w chat msg := by
      unfold titleLockEffects
      rw [hlk]
      simp only [hnct, if_true, htitle]
      rw [if_pos ht]
      split <;> simp_all
    unfold handlerPre
    exact List.mem_append.mpr (Or.inl (List.mem_append.mpr (Or.inr hmem)))
  · intro hnp hsvc
    have hmem : Effect.deleteChatPhotoCall chat.id (w.delPhotoOk chat.id)
        ∈ noPhotoEffects st.cache w chat msg := by
      unfold noPhotoEffects
      rw [if_pos hnp]
      simp only [hsvc, if_true]
      split <;> simp_all
    unfold handlerPre
    exact List.mem_append.mpr (Or.inr hmem)

/-- State for the C5 witness: clean-info on, chat 3 title-locked to "Locked"
and photo-enforced. -/
def c5State : GState :=
  { g0 with cache := { cache0 with
      cleanInfo := true
      lockedInfo := [(3, ⟨some "Locked", none⟩)]
      noPhotoChats := {3} } }

/-- The C5 witness message: a title-change service notice. -/
def c5Msg : Msg := ⟨some ⟨5, false⟩, none, none, true, false, false, false, none⟩

/-- Witness for C5 at a concrete input. -/
theorem c5_cleaninfo_after_reverts_witness :
    (handle_all_messages c5State w0 ⟨3, .supergroup⟩ c5Msg).action = .deleteMessage ∧
    ∃ pre, (handle_all_messages c5State w0 ⟨3, .supergroup⟩ c5Msg).effects
        = pre ++ [.deleteMsg w0.deleteOk] ∧
      cnt isDeleteMsgEff pre = 0 ∧ cnt isBanCallEff pre = 0 ∧
      (∀ e t, c5State.cache.lockedInfo.lookup 3 = some e → e.title = some t → t ≠ "" →
        c5Msg.new_chat_title = true →
        Effect.setChatTitle 3 t (w0.setTitleOk 3) ∈ pre) ∧
      ((3 : Int) ∈ c5State.cache.noPhotoChats →
        (c5Msg.new_chat_photo || c5Msg.delete_chat_photo) = true →
        Effect.deleteChatPhotoCall 3 (w0.delPhotoOk 3) ∈ pre) :=
  c5_cleaninfo_after_reverts c5State w0 ⟨3, .supergroup⟩ c5Msg rfl rfl rfl

-- -------------------- C10 --------------------

/-- Claim C10: a locked-info entry whose desired title is null or empty is
inert — neither the handler (on a title-change notice) nor the per-chat
reconciliation body issues any set-title call for that chat. -/
theorem c10_empty_title_inert (st : GState) (w : World) (chat : Chat) (msg : Msg)
    (e : LockedEntry)
    (hlk : st.cache.lockedInfo.lookup chat.id = some e)
    (hempty : e.title = none ∨ e.title = some "") :
    cnt isSetTitleEff (handle_all_messages st w chat msg).effects = 0 ∧
    cnt isSetTitleEff (enforceChatCalls st.cache w chat.id) = 0 := by
  constructor
  · rw [handle_effects_eq,
      cnt_decideTail isSetTitleEff (fun _ => rfl) (fun _ _ _ => rfl)]
    unfold handlerPre
    rw [cnt_append, cnt_append, cnt_watchStep _ rfl,
      cnt_noPhoto _ (fun _ _ => rfl) rfl]
    have htl : cnt isSetTitleEff (titleLockEffects st.cache w chat msg) = 0 := by
      unfold titleLockEffects
      rw [hlk]
      rcases hempty with h | h <;> simp [h, cnt]
    rw [htl]
  · unfold enforceChatCalls
    cases hg : w.getChat chat.id with
    | none => simp [hg, cnt]
    | some info =>
      simp only [hg]
      split
      · rfl
      · rw [cnt_append]
        have h1 : cnt isSetTitleEff
            (match st.cache.lockedInfo.lookup chat.id with
             | some locked =>
               match locked.title with
               | some desired =>
                 if desired ≠ "" ∧ info.title ≠ some desired then
                   [Effect.setChatTitle chat.id desired (w.setTitleOk chat.id)]
                 else []
               | none => []
             | none => []) = 0 := by
          rw [hlk]
          rcases hempty with h | h <;> simp [h, cnt]
        have h2 : cnt isSetTitleEff
            (if chat.id ∈ st.cache.noPhotoChats ∧ info.photo.isSome then
               [Effect.deleteChatPhotoCall chat.id (w.delPhotoOk chat.id)]
             else []) = 0 := by
          split <;> rfl
        rw [h1, h2]

/-- State for the C10 witness: chat 9 locked with an empty desired title. -/
def c10State : GState :=
  { g0 with cache := { cache0 with lockedInfo := [(9, ⟨some "", some "p"⟩)] } }

/-- The C10 witness message: a title-change notice in chat 9. -/
def c10Msg : Msg := ⟨some ⟨5, false⟩, none, none, true, false, false, false, none⟩

/-- Witness for C10 at a concrete input. -/
theorem c10_empty_title_inert_witness :
    cnt isSetTitleEff (handle_all_messages c10State w0 ⟨9, .group⟩ c10Msg).effects = 0 ∧
    cnt isSetTitleEff (enforceChatCalls c10State.cache w0 9) = 0 :=
  c10_empty_title_inert c10State w0 ⟨9, .group⟩ c10Msg ⟨some "", some "p"⟩ rfl (Or.inr rfl)

-- -------------------- C1 amended --------------------

/-- Claim C1 amended: for a group/supergroup message with a human sender
U ∈ GlobalBanSet, the resulting action is `BanMember(U)` provided no earlier
rule preempts it: the event is not purged by the clean-info sweep, is not
sender-chat-authored, and is not successfully deleted by the bot-mute rule
(which fires first when the chat is bot-muted and the sender is a bot or the
message is relayed via a bot). -/
theorem c1_amended (st : GState) (w : World) (chat : Chat) (msg : Msg) (u : User)
    (hkind : chat.kind = .group ∨ chat.kind = .supergroup)
    (hfu : msg.from_user = some u)
    (hban : u.id ∈ st.cache.banned)
    (hci : ¬(st.cache.cleanInfo = true ∧ is_info_change_service_message msg = true))
    (hsc : msg.sender_chat = none)
    (hbm : ¬(chat.id ∈ st.cache.botMutedChats ∧ w.deleteOk = true ∧
      (u.is_bot = true ∨ msg.via_bot.isSome = true))) :
    (handle_all_messages st w chat msg).action = .banMember u.id := by
  rw [handle_action_eq]
  have hc1 : (st.cache.cleanInfo && isGSC chat.kind && is_info_change_service_message msg)
      = false := by
    cases hcl : st.cache.cleanInfo <;> cases hii : is_info_change_service_message msg <;>
      simp_all
  have hk2 : (!(chat.kind == ChatKind.group || chat.kind == ChatKind.supergroup)) = false := by
    rcases hkind with h | h <;> simp [h]
  have hscb : msg.sender_chat.isSome = false := by rw [hsc]; rfl
  have hbmf : (botMuteStep st.cache w chat msg).2 = false := by
    by_cases hin : chat.id ∈ st.cache.botMutedChats
    case neg => simp [botMuteStep, hin]
    case pos =>
      cases hub : u.is_bot
      case false =>
        cases hvb : msg.via_bot.isSome
        case false => simp [botMuteStep, hin, hfu, hub, hvb]
        case true =>
          have hdel : w.deleteOk = false := by
            cases hdo : w.deleteOk
            · rfl
            · exact absurd ⟨hin, hdo, Or.inr hvb⟩ hbm
          simp [botMuteStep, hin, hfu, hub, hvb, hdel]
      case true =>
        have hdel : w.deleteOk = false := by
          cases hdo : w.deleteOk
          · rfl
          · exact absurd ⟨hin, hdo, Or.inl hub⟩ hbm
        simp [botMuteStep, hin, hfu, hub, hdel]
  simp only [decideTail, hc1, hk2, hscb, Bool.false_eq_true, if_false, hbmf, hfu]
  simp [hban]

/-- State for the C1-amended witness: user 5 banned. -/
def c1aState : GState := { g0 with cache := { cache0 with banned := {5} } }

/-- Witness for C1 amended at a concrete input. -/
theorem c1_amended_witness :
    (handle_all_messages c1aState w0 ⟨10, .group⟩ plainMsg5).action = .banMember 5 :=
  c1_amended c1aState w0 ⟨10, .group⟩ plainMsg5 ⟨5, false⟩ (Or.inl rfl) rfl (by decide)
    (by simp [c1aState, cache0, is_info_change_service_message, plainMsg5])
    rfl (by simp [c1aState, cache0])

-- -------------------- C7 amended --------------------

/-- Every call the per-chat sweep body issues is addressed to that chat. -/
theorem enforce_effectChatId (cache : Cache) (w : World) (x : Int) :
    ∀ e ∈ enforceChatCalls cache w x, effectChatId e = some x := by
  intro e he
  unfold enforceChatCalls at he
  cases hg : w.getChat x with
  | none => rw [hg] at he; simp at he
  | some info =>
    rw [hg] at he
    dsimp only at he
    by_cases hk : info.kind ≠ ChatKind.channel
    · rw [if_pos hk] at he; simp at he
    · rw [if_neg hk] at he
      rcases List.mem_append.mp he with h | h
      · repeat' split at h
        all_goals simp_all [effectChatId]
      · split at h
        all_goals simp_all [effectChatId]

/-- The per-chat sweep body only consults the world at that chat. -/
theorem enforce_congr (cache : Cache) (w w' : World) (x : Int)
    (h1 : w.getChat x = w'.getChat x) (h2 : w.setTitleOk x = w'.setTitleOk x)
    (h3 : w.delPhotoOk x = w'.delPhotoOk x) :
    enforceChatCalls cache w x = enforceChatCalls cache w' x := by
  unfold enforceChatCalls
  simp only [h1, h2, h3]

theorem cnt_isSetTitleFor_other (cache : Cache) (w : World) (x c : Int) (hx : x ≠ c) :
    cnt (isSetTitleFor c) (enforceChatCalls cache w x) = 0 := by
  have hall := enforce_effectChatId cache w x
  simp only [cnt, List.length_eq_zero, List.filter_eq_nil_iff]
  intro e he
  have h := hall e he
  cases e <;> simp_all [isSetTitleFor, effectChatId]

/-- A sweep re-sets a chat's title exactly when the chat is a live channel
with a truthy locked title that differs from the live title. -/
def sweepNeedsTitleFix (cache : Cache) (w : World) (c : Int) : Prop :=
  ∃ info e d, w.getChat c = some info ∧ info.kind = .channel ∧
    cache.lockedInfo.lookup c = some e ∧ e.title = some d ∧ d ≠ "" ∧
    info.title ≠ some d

theorem cnt_isSetTitleFor_self_pos (cache : Cache) (w : World) (c : Int)
    (h : sweepNeedsTitleFix cache w c) :
    cnt (isSetTitleFor c) (enforceChatCalls cache w c) = 1 := by
  obtain ⟨info, e, d, hg, hk, hlk, ht, hd, hne⟩ := h
  unfold enforceChatCalls
  rw [hg]
  dsimp only
  rw [if_neg (by simp [hk]), cnt_append]
  have h2 : cnt (isSetTitleFor c)
      (if c ∈ cache.noPhotoChats ∧ info.photo.isSome then
        [Effect.deleteChatPhotoCall c (w.delPhotoOk c)]
      else []) = 0 := by
    split <;> rfl
  rw [h2, hlk]
  simp only [ht]
  rw [if_pos ⟨hd, hne⟩]
  simp [cnt, isSetTitleFor]

theorem cnt_isSetTitleFor_self_zero (cache : Cache) (w : World) (c : Int)
    (h : ¬ sweepNeedsTitleFix cache w c) :
    cnt (isSetTitleFor c) (enforceChatCalls cache w c) = 0 := by
  unfold enforceChatCalls
  cases hg : w.getChat c with
  | none => rfl
  | some info =>
    dsimp only
    by_cases hk : info.kind ≠ ChatKind.channel
    · rw [if_pos hk]; rfl
    · rw [if_neg hk, cnt_append]
      have hkc : info.kind = ChatKind.channel := not_not.mp hk
      have h2 : cnt (isSetTitleFor c)
          (if c ∈ cache.noPhotoChats ∧ info.photo.isSome then
            [Effect.deleteChatPhotoCall c (w.delPhotoOk c)]
          else []) = 0 := by
        split <;> rfl
      rw [h2]
      cases hlk : cache.lockedInfo.lookup c with
      | none => simp [cnt]
      | some e2 =>
        simp only [hlk]
        cases ht : e2.title with
        | none => simp [cnt]
        | some d =>
          simp only [ht]
          by_cases hcnd : d ≠ "" ∧ info.title ≠ some d
          · exact absurd ⟨info, e2, d, hg, hkc, hlk, ht, hcnd.1, hcnd.2⟩ h
          · rw [if_neg hcnd]; simp [cnt]

theorem cnt_isSetTitleFor_job (cache : Cache) (w : World) (c : Int) :
    ∀ reg : List Int,
      cnt (isSetTitleFor c) (job_enforce_channels cache w reg)
        = reg.count c * cnt (isSetTitleFor c) (enforceChatCalls cache w c)
  | [] => by simp [job_enforce_channels, cnt]
  | x :: rest => by
    simp only [job_enforce_channels]
    rw [cnt_append, cnt_isSetTitleFor_job cache w c rest]
    by_cases hx : x = c
    · subst hx
      rw [List.count_cons_self]
      ring
    · rw [cnt_isSetTitleFor_other cache w x c hx,
        List.count_cons_of_ne (Ne.symm hx)]
      simp

/-- Claim C7 amended: during a sweep over a registry listing chat `c` once, a
set-title call for `c` is issued exactly once if `c` is a live channel with a
locked entry whose desired title is non-null, non-empty and differs from the
live title — and zero times otherwise (no entry, matching title, null/empty
desired title, non-channel, or inaccessible chat). -/
theorem c7_amended (cache : Cache) (w : World) (reg : List Int) (c : Int)
    (hcount : reg.count c = 1) :
    (sweepNeedsTitleFix cache w c →
      cnt (isSetTitleFor c) (job_enforce_channels cache w reg) = 1) ∧
    (¬ sweepNeedsTitleFix cache w c →
      cnt (isSetTitleFor c) (job_enforce_channels cache w reg) = 0) := by
  constructor <;> intro h <;>
    rw [cnt_isSetTitleFor_job cache w c reg, hcount, one_mul]
  · exact cnt_isSetTitleFor_self_pos cache w c h
  · exact cnt_isSetTitleFor_self_zero cache w c h

/-- Cache for the C7-amended witness: channel 1 locked to title "t". -/
def c7wCache : Cache := { cache0 with lockedInfo := [(1, ⟨some "t", none⟩)] }

/-- World for the C7-amended witness: channel 1 is live with title "x". -/
def c7wWorld : World :=
  { w0 with getChat := fun c => if c = 1 then some ⟨some "x", none, .channel⟩ else none }

/-- Witness for C7 amended at a concrete input: exactly one set-title call. -/
theorem c7_amended_witness :
    cnt (isSetTitleFor 1) (job_enforce_channels c7wCache c7wWorld [1]) = 1 :=
  (c7_amended c7wCache c7wWorld [1] 1 (by decide)).1
    ⟨⟨some "x", none, .channel⟩, ⟨some "t", none⟩, "t", rfl, rfl, rfl, rfl,
      by decide, by decide⟩

-- -------------------- C8 --------------------

/-- Claim C8: every owner command invoked by a user whose identity differs
from the configured owner returns with the process state unchanged and no
effect at all — no policy mutation and no response message. -/
theorem c8_owner_gate (ownerId u : Int) (upd : Upd) (st : GState) (w : World)
    (hu : upd.effectiveUser = some u) (hne : u ≠ ownerId) :
    cmd_mute ownerId upd st w = (st, []) ∧
    cmd_unmute ownerId upd st w = (st, []) ∧
    cmd_ban ownerId upd st w = (st, []) ∧
    cmd_unban ownerId upd st w = (st, []) ∧
    cmd_admin ownerId upd st w = (st, []) ∧
    cmd_mutebot ownerId upd st w = (st, []) ∧
    cmd_unmutebot ownerId upd st w = (st, []) ∧
    cmd_chatid ownerId upd st w = (st, []) ∧
    cmd_lockinfo ownerId upd st w = (st, []) ∧
    cmd_unlockinfo ownerId upd st w = (st, []) ∧
    cmd_locknophoto ownerId upd st w = (st, []) ∧
    cmd_unlocknophoto ownerId upd st w = (st, []) ∧
    cmd_lockbroadcast ownerId upd st w = (st, []) ∧
    cmd_unlockbroadcast ownerId upd st w = (st, []) ∧
    cmd_cleaninfo_global_on ownerId upd st w = (st, []) ∧
    cmd_cleaninfo_global_off ownerId upd st w = (st, []) ∧
    cmd_testdelete ownerId upd st w = (st, []) ∧
    cmd_dbg ownerId upd st w = (st, []) ∧
    cmd_watch ownerId upd st w = (st, []) ∧
    cmd_unwatch ownerId upd st w = (st, []) := by
  have hog : owner_only ownerId upd = false := by
    simp only [owner_only, hu]
    exact beq_eq_false_iff_ne.mpr hne
  refine ⟨?_, ?_, ?_, ?_, ?_, ?_, ?_, ?_, ?_, ?_, ?_, ?_, ?_, ?_, ?_, ?_, ?_, ?_, ?_, ?_⟩ <;>
    simp [cmd_mute, cmd_unmute, cmd_ban, cmd_unban, cmd_admin, cmd_mutebot,
      cmd_unmutebot, cmd_chatid, cmd_lockinfo, cmd_unlockinfo, cmd_locknophoto,
      cmd_unlocknophoto, cmd_lockbroadcast, cmd_unlockbroadcast,
      cmd_cleaninfo_global_on, cmd_cleaninfo_global_off, cmd_testdelete,
      cmd_dbg, cmd_watch, cmd_unwatch, hog]

/-- An update issued by user 2 (not the configured owner 1). -/
def upd2 : Upd := ⟨some 2, none, [], false⟩

/-- Witness for C8 at a concrete input. -/
theorem c8_owner_gate_witness :
    cmd_mute 1 upd2 g0 w0 = (g0, []) ∧
    cmd_unmute 1 upd2 g0 w0 = (g0, []) ∧
    cmd_ban 1 upd2 g0 w0 = (g0, []) ∧
    cmd_unban 1 upd2 g0 w0 = (g0, []) ∧
    cmd_admin 1 upd2 g0 w0 = (g0, []) ∧
    cmd_mutebot 1 upd2 g0 w0 = (g0, []) ∧
    cmd_unmutebot 1 upd2 g0 w0 = (g0, []) ∧
    cmd_chatid 1 upd2 g0 w0 = (g0, []) ∧
    cmd_lockinfo 1 upd2 g0 w0 = (g0, []) ∧
    cmd_unlockinfo 1 upd2 g0 w0 = (g0, []) ∧
    cmd_locknophoto 1 upd2 g0 w0 = (g0, []) ∧
    cmd_unlocknophoto 1 upd2 g0 w0 = (g0, []) ∧
    cmd_lockbroadcast 1 upd2 g0 w0 = (g0, []) ∧
    cmd_unlockbroadcast 1 upd2 g0 w0 = (g0, []) ∧
    cmd_cleaninfo_global_on 1 upd2 g0 w0 = (g0, []) ∧
    cmd_cleaninfo_global_off 1 upd2 g0 w0 = (g0, []) ∧
    cmd_testdelete 1 upd2 g0 w0 = (g0, []) ∧
    cmd_dbg 1 upd2 g0 w0 = (g0, []) ∧
    cmd_watch 1 upd2 g0 w0 = (g0, []) ∧
    cmd_unwatch 1 upd2 g0 w0 = (g0, []) :=
  c8_owner_gate 1 2 upd2 g0 w0 rfl (by decide)

-- -------------------- C9 --------------------

/-- Claim C9: sweep failure isolation.  If two worlds agree on every chat
other than `c` — so a failure of any transport call at `c` (get-chat
raising, set-title or delete-photo failing) is a change local to `c` — the
sweep's calls addressed to the other chats are identical; and within one
chat, a set-title failure does not prevent the delete-photo attempt. -/
theorem c9_sweep_isolation (cache : Cache) (w w' : World) (reg : List Int) (c : Int)
    (hagree : ∀ x, x ≠ c → w.getChat x = w'.getChat x ∧
      w.setTitleOk x = w'.setTitleOk x ∧ w.delPhotoOk x = w'.delPhotoOk x) :
    (job_enforce_channels cache w reg).filter (fun e => !(effectChatId e == some c))
      = (job_enforce_channels cache w' reg).filter (fun e => !(effectChatId e == some c)) ∧
    (∀ info, w.getChat c = some info → info.kind = .channel →
      c ∈ cache.noPhotoChats → info.photo.isSome = true →
      Effect.deleteChatPhotoCall c (w.delPhotoOk c) ∈ enforceChatCalls cache w c) := by
  constructor
  · induction reg with
    | nil => rfl
    | cons x rest ih =>
      simp only [job_enforce_channels, List.filter_append]
      rw [ih]
      congr 1
      by_cases hx : x = c
      · subst hx
        have k : ∀ ww : World,
            (enforceChatCalls cache ww x).filter (fun e => !(effectChatId e == some x))
              = [] := by
          intro ww
          rw [List.filter_eq_nil_iff]
          intro e he
          have h := enforce_effectChatId cache ww x e he
          simp [h]
        rw [k w, k w']
      · have h := hagree x hx
        rw [enforce_congr cache w w' x h.1 h.2.1 h.2.2]
  · intro info hg hk hnp hphoto
    unfold enforceChatCalls
    rw [hg]
    dsimp only
    rw [if_neg (by simp [hk])]
    refine List.mem_append.mpr (Or.inr ?_)
    rw [if_pos ⟨hnp, hphoto⟩]
    simp

/-- Cache for the C9 witness: channel 2 locked to "t", chat 1 photo-enforced. -/
def c9Cache : Cache :=
  { cache0 with lockedInfo := [(2, ⟨some "t", none⟩)], noPhotoChats := {1} }

/-- C9 witness world A: get-chat raises at chat 1, chat 2 is a live channel. -/
def c9WorldA : World :=
  { w0 with getChat := fun c => if c = 2 then some ⟨some "x", none, .channel⟩ else none }

/-- C9 witness world B: like world A but chat 1 is accessible. -/
def c9WorldB : World :=
  { w0 with getChat := fun c =>
      if c = 2 then some ⟨some "x", none, .channel⟩
      else if c = 1 then some ⟨none, some "p", .channel⟩ else none }

/-- Witness for C9 at a concrete input: chat 1's get-chat failure in world A
leaves the calls for chat 2 unchanged. -/
theorem c9_sweep_isolation_witness :
    (job_enforce_channels c9Cache c9WorldA [1, 2]).filter
        (fun e => !(effectChatId e == some 1))
      = (job_enforce_channels c9Cache c9WorldB [1, 2]).filter
        (fun e => !(effectChatId e == some 1)) ∧
    (∀ info, c9WorldA.getChat 1 = some info → info.kind = .channel →
      (1 : Int) ∈ c9Cache.noPhotoChats → info.photo.isSome = true →
      Effect.deleteChatPhotoCall 1 (c9WorldA.delPhotoOk 1) ∈ enforceChatCalls c9Cache c9WorldA 1) :=
  c9_sweep_isolation c9Cache c9WorldA c9WorldB [1, 2] 1
    (by
      intro x hx
      refine ⟨?_, rfl, rfl⟩
      simp [c9WorldA, c9WorldB, hx])

end Raid
